import Mathlib

/-!
# Emf2EmfPlus: the conversion pipeline of `src/main.cpp`

A shallow embedding of the single translation unit of the converter.  The
program is a straight-line sequence of calls into the operating system and
the GDI+ flat API.  Every such call is recorded as an `Event` (the call with
its arguments and, for calls whose result the program reads, the result);
the results themselves come from a `Backend`, an oracle that may answer each
call with any value.  Each C++ function becomes a Lean function returning
its C++ return value together with the list of events it produced.

Handles and pointers are natural numbers, `0` standing for `nullptr`.
`Gdiplus::Status` is an `int`-based enumeration and is modelled by `Int`.
-/

namespace Emf2EmfPlus

/-- Opaque handles (`HDC`, `HMODULE`, `GpGraphics*`, `GpMetafile*`); `0` is the null handle. -/
abbrev Handle := Nat

/-- The type `Gdiplus::Status` (alias `GpStatus`): an enumeration over `int`. -/
abbrev GpStatus := Int

/-! The enumerators of `Gdiplus::Status`, with the values the GDI+ header
`GdiplusTypes.h` gives them (the header is part of the platform SDK). -/
namespace Gdiplus

def Ok : GpStatus := 0
def GenericError : GpStatus := 1
def InvalidParameter : GpStatus := 2
def OutOfMemory : GpStatus := 3
def ObjectBusy : GpStatus := 4
def InsufficientBuffer : GpStatus := 5
def NotImplemented : GpStatus := 6
def Win32Error : GpStatus := 7
def WrongState : GpStatus := 8
def Aborted : GpStatus := 9
def FileNotFound : GpStatus := 10
def ValueOverflow : GpStatus := 11
def AccessDenied : GpStatus := 12
def UnknownImageFormat : GpStatus := 13
def FontFamilyNotFound : GpStatus := 14
def FontStyleNotFound : GpStatus := 15
def NotTrueTypeFont : GpStatus := 16
def UnsupportedGdiplusVersion : GpStatus := 17
def GdiplusNotInitialized : GpStatus := 18
def PropertyNotFound : GpStatus := 19
def PropertyNotSupported : GpStatus := 20

/-- The enumeration `Gdiplus::EmfType`. -/
inductive EmfType where
  | EmfTypeEmfOnly
  | EmfTypeEmfPlusOnly
  | EmfTypeEmfPlusDual
  deriving DecidableEq, Repr

/-- The enumerator `UnitPixel` of `Gdiplus::Unit`. -/
def UnitPixel : Int := 2
/-- The enumerator `SmoothingModeHighQuality` (`QualityModeHigh`). -/
def SmoothingModeHighQuality : Int := 2
/-- The enumerator `InterpolationModeHighQuality` (`QualityModeHigh`). -/
def InterpolationModeHighQuality : Int := 2
/-- The enumerator `PixelOffsetModeHighQuality` (`QualityModeHigh`). -/
def PixelOffsetModeHighQuality : Int := 2

end Gdiplus

open Gdiplus (EmfType)

/-- One call from the program into the platform, with the arguments passed
and, where the program receives one, the value that came back. -/
inductive Event where
  | GetDC (hWnd : Handle) (result : Handle)
  | ReleaseDC (hWnd : Handle) (hDC : Handle)
  | GdipCreateMetafileFromFile (file : String) (status : GpStatus) (metafile : Handle)
  | GdipCreateFromHDC (hdc : Handle) (status : GpStatus) (graphics : Handle)
  | GdipSetPageUnit (graphics : Handle) (unit : Int)
  | GdipSetSmoothingMode (graphics : Handle) (mode : Int)
  | GdipSetInterpolationMode (graphics : Handle) (mode : Int)
  | GdipSetPixelOffsetMode (graphics : Handle) (mode : Int)
  | GdipDeleteGraphics (graphics : Handle)
  | GdipDisposeImage (image : Handle)
  | LoadLibrary (name : String) (result : Handle)
  | GetProcAddress (hModule : Handle) (name : String) (found : Bool)
  | FreeLibrary (hModule : Handle)
  | GdipConvertToEmfPlusToFile (graphics : Handle) (metafile : Handle) (filename : String)
      (emfType : EmfType) (description : String)
      (status : GpStatus) (success : Bool) (outMetafile : Handle)
  | SetProcessDPIAware (result : Bool)
  | GdiplusStartup (status : GpStatus) (token : Nat)
  | GdiplusShutdown (token : Nat)
  | wprintf (text : String)
  deriving DecidableEq, Repr

/-- What `GdipConvertToEmfPlusToFile` hands back: its return value and the
final contents of its two out-parameters. -/
structure ConvertResponse where
  status : GpStatus
  success : Bool
  outMetafile : Handle
  deriving DecidableEq, Repr

/-- The platform as an oracle.  Each field answers one kind of call as a
function of the arguments of the call; no answer is constrained. -/
structure Backend where
  GetDC : Handle → Handle
  GdipCreateMetafileFromFile : String → GpStatus × Handle
  GdipCreateFromHDC : Handle → GpStatus × Handle
  LoadLibrary : String → Handle
  GetProcAddress : Handle → String → Bool
  GdipConvertToEmfPlusToFile :
    Handle → Handle → String → EmfType → String → ConvertResponse
  SetProcessDPIAware : Bool
  GdiplusStartup : GpStatus × Nat

/-- The help text `pHelp`. -/
def pHelp : String :=
  "\nEmf2EmfPlus - EMF to EMF+ Converter (v1.0)\n" ++
  "===========================================\n" ++
  "Converts standard Enhanced Metafile (EMF) files to EMF+ format using GDI+\n" ++
  "\n" ++
  "SYNOPSIS:\n" ++
  "  emf2emfplus.exe <input_file> <output_file>\n" ++
  "\n" ++
  "ARGUMENTS:\n" ++
  "  <input_file>    Path to the source EMF file.\n" ++
  "  <output_file>   Destination path for the converted EMF+ file.\n" ++
  "\n" ++
  "EXAMPLE:\n" ++
  "  emf2emfplus.exe input.emf output.emf\n" ++
  "\n" ++
  "NOTES:\n" ++
  "  - Overwrites the output file if it already exists.\n" ++
  "  - The resulting file will be in EMF+ format only (no dual-mode EMF).\n" ++
  "  - Make sure the input file is a valid EMF file.\n"

/-- The function `GetGdiPlusError`: the `switch` over the status, one arm per
listed enumerator, and the `default` arm. -/
def GetGdiPlusError (status : GpStatus) : String :=
  if status = Gdiplus.Ok then "Success"
  else if status = Gdiplus.GenericError then "Generic error"
  else if status = Gdiplus.InvalidParameter then "Invalid parameter"
  else if status = Gdiplus.OutOfMemory then "Out of memory"
  else if status = Gdiplus.ObjectBusy then "Object busy"
  else if status = Gdiplus.InsufficientBuffer then "Insufficient buffer"
  else if status = Gdiplus.NotImplemented then "Not implemented"
  else if status = Gdiplus.Win32Error then "Win32 error"
  else if status = Gdiplus.WrongState then "Wrong state"
  else if status = Gdiplus.Aborted then "Aborted"
  else if status = Gdiplus.FileNotFound then "File not found"
  else if status = Gdiplus.ValueOverflow then "Value overflow"
  else if status = Gdiplus.AccessDenied then "Access denied"
  else if status = Gdiplus.UnknownImageFormat then "Unknown image format"
  else if status = Gdiplus.FontFamilyNotFound then "Font family not found"
  else if status = Gdiplus.FontStyleNotFound then "Font style not found"
  else if status = Gdiplus.NotTrueTypeFont then "Not a TrueType font"
  else if status = Gdiplus.UnsupportedGdiplusVersion then "Unsupported GDI+ version"
  else if status = Gdiplus.GdiplusNotInitialized then "GDI+ not initialized"
  else if status = Gdiplus.PropertyNotFound then "Property not found"
  else if status = Gdiplus.PropertyNotSupported then "Property not supported"
  else "Unknown error"

/-- The function `__SetProcessDPIAware`. -/
def __SetProcessDPIAware (b : Backend) : Bool × List Event :=
  let result := false
  let hGdiplus := b.LoadLibrary "user32.dll"
  let t0 := [Event.LoadLibrary "user32.dll" hGdiplus]
  if hGdiplus ≠ 0 then
    let found := b.GetProcAddress hGdiplus "SetProcessDPIAware"
    let t1 := t0 ++ [Event.GetProcAddress hGdiplus "SetProcessDPIAware" found]
    if found then
      let r := b.SetProcessDPIAware
      (r, t1 ++ [Event.SetProcessDPIAware r] ++ [Event.FreeLibrary hGdiplus])
    else
      (result, t1 ++ [Event.FreeLibrary hGdiplus])
  else
    (result, t0)

/-- The function `__ConvertToEmfPlusToFile`. -/
def __ConvertToEmfPlusToFile (b : Backend) (gpGr gpEmf : Handle) (outEmfFilePath : String) :
    GpStatus × List Event :=
  let status := Gdiplus.GdiplusNotInitialized
  let hGdiplus := b.LoadLibrary "gdiplus.dll"
  let t0 := [Event.LoadLibrary "gdiplus.dll" hGdiplus]
  if hGdiplus ≠ 0 then
    let found := b.GetProcAddress hGdiplus "GdipConvertToEmfPlusToFile"
    let t1 := t0 ++ [Event.GetProcAddress hGdiplus "GdipConvertToEmfPlusToFile" found]
    if found then
      let r := b.GdipConvertToEmfPlusToFile gpGr gpEmf outEmfFilePath
        EmfType.EmfTypeEmfPlusOnly "EMFplus"
      let t2 := t1 ++ [Event.GdipConvertToEmfPlusToFile gpGr gpEmf outEmfFilePath
        EmfType.EmfTypeEmfPlusOnly "EMFplus" r.status r.success r.outMetafile]
      if r.status = Gdiplus.Ok then
        (r.status, t2 ++ [Event.GdipDisposeImage r.outMetafile] ++ [Event.FreeLibrary hGdiplus])
      else
        (r.status, t2 ++ [Event.FreeLibrary hGdiplus])
    else
      (status, t1 ++ [Event.FreeLibrary hGdiplus])
  else
    (status, t0)

/-- The function `ConvertAndSaveEmfToEmfPlus`.  The locals `gpEmf` and `gpGr`
are the out-parameters after the reset to `nullptr` on a failed call. -/
def ConvertAndSaveEmfToEmfPlus (b : Backend) (inEmfFilePath outEmfFilePath : String) :
    List Event :=
  let scrDC := b.GetDC 0
  let t0 := [Event.GetDC 0 scrDC]
  let r1 := b.GdipCreateMetafileFromFile inEmfFilePath
  let t1 := t0 ++ [Event.GdipCreateMetafileFromFile inEmfFilePath r1.1 r1.2]
  let gpEmf : Handle := if r1.1 ≠ Gdiplus.Ok then 0 else r1.2
  let t2 :=
    if r1.1 ≠ Gdiplus.Ok then
      t1 ++ [Event.wprintf ("[ERROR] Failed to open input file: " ++ GetGdiPlusError r1.1 ++ ".\n")]
    else t1
  let r2 := b.GdipCreateFromHDC scrDC
  let t3 := t2 ++ [Event.GdipCreateFromHDC scrDC r2.1 r2.2]
  let gpGr : Handle := if r2.1 = Gdiplus.Ok then r2.2 else 0
  let t4 :=
    if r2.1 = Gdiplus.Ok then
      t3 ++ [Event.GdipSetPageUnit r2.2 Gdiplus.UnitPixel,
             Event.GdipSetSmoothingMode r2.2 Gdiplus.SmoothingModeHighQuality,
             Event.GdipSetInterpolationMode r2.2 Gdiplus.InterpolationModeHighQuality,
             Event.GdipSetPixelOffsetMode r2.2 Gdiplus.PixelOffsetModeHighQuality]
    else
      t3 ++ [Event.wprintf ("[ERROR] Failed to initialize GDI+: " ++ GetGdiPlusError r2.1 ++ ".\n")]
  let t5 :=
    if gpEmf ≠ 0 ∧ gpGr ≠ 0 then
      let c := __ConvertToEmfPlusToFile b gpGr gpEmf outEmfFilePath
      if c.1 = Gdiplus.Ok then
        t4 ++ c.2 ++ [Event.wprintf ("[OK] Conversion succeeded: " ++ outEmfFilePath ++ "\n")]
      else
        t4 ++ c.2 ++ [Event.wprintf ("[ERROR] Conversion failed: " ++ GetGdiPlusError c.1 ++ ".\n")]
    else t4
  let t6 := if gpGr ≠ 0 then t5 ++ [Event.GdipDeleteGraphics gpGr] else t5
  let t7 := if gpEmf ≠ 0 then t6 ++ [Event.GdipDisposeImage gpEmf] else t6
  t7 ++ [Event.ReleaseDC 0 scrDC]

/-- The function `wmain`: the exit code and the events of the whole run.
The argument vector is a list; `argv[i]` past its end reads as the empty
string. -/
def wmain (b : Backend) (argc : Int) (argv : List String) : Int × List Event :=
  let t0 := (__SetProcessDPIAware b).2
  if argc < 3 then
    (0, t0 ++ [Event.wprintf pHelp])
  else
    let t1 := t0 ++ [Event.wprintf "\nEmf2EmfPlus - EMF to EMF+ Converter (v1.0)\n"]
    let inEmfFilePath := argv.getD 1 ""
    let outEmfFilePath := argv.getD 2 ""
    let s := b.GdiplusStartup
    let t2 := t1 ++ [Event.GdiplusStartup s.1 s.2]
    let t3 := t2 ++ ConvertAndSaveEmfToEmfPlus b inEmfFilePath outEmfFilePath
    (0, t3 ++ [Event.GdiplusShutdown s.2])

/-! ## Observations on a trace -/

/-- The text an event writes to standard output, if it is a `wprintf`. -/
def Event.text? : Event → Option String
  | Event.wprintf s => some s
  | _ => none

/-- The text written to standard output, one entry per `wprintf` call. -/
def stdout (tr : List Event) : List String := tr.filterMap Event.text?

/-- The display-surface handle an event obtains: a non-null result of `GetDC`. -/
def Event.acquiredDC? : Event → Option Handle
  | Event.GetDC _ h => if h ≠ 0 then some h else none
  | _ => none

/-- The display-surface handle an event gives back: a non-null argument of `ReleaseDC`. -/
def Event.releasedDC? : Event → Option Handle
  | Event.ReleaseDC _ h => if h ≠ 0 then some h else none
  | _ => none

/-- The graphics context an event creates: the non-null handle of a
`GdipCreateFromHDC` call that returned `Ok`. -/
def Event.acquiredGraphics? : Event → Option Handle
  | Event.GdipCreateFromHDC _ st h => if st = Gdiplus.Ok ∧ h ≠ 0 then some h else none
  | _ => none

/-- The graphics context an event deletes: a non-null argument of `GdipDeleteGraphics`. -/
def Event.releasedGraphics? : Event → Option Handle
  | Event.GdipDeleteGraphics h => if h ≠ 0 then some h else none
  | _ => none

/-- The metafile image an event obtains: the non-null handle of a
`GdipCreateMetafileFromFile` or `GdipConvertToEmfPlusToFile` call that returned `Ok`. -/
def Event.acquiredImage? : Event → Option Handle
  | Event.GdipCreateMetafileFromFile _ st h => if st = Gdiplus.Ok ∧ h ≠ 0 then some h else none
  | Event.GdipConvertToEmfPlusToFile _ _ _ _ _ st _ h =>
      if st = Gdiplus.Ok ∧ h ≠ 0 then some h else none
  | _ => none

/-- The metafile image an event disposes: a non-null argument of `GdipDisposeImage`. -/
def Event.releasedImage? : Event → Option Handle
  | Event.GdipDisposeImage h => if h ≠ 0 then some h else none
  | _ => none

/-- The module an event loads: a non-null result of `LoadLibrary`. -/
def Event.loadedModule? : Event → Option Handle
  | Event.LoadLibrary _ h => if h ≠ 0 then some h else none
  | _ => none

/-- The module an event frees: a non-null argument of `FreeLibrary`. -/
def Event.freedModule? : Event → Option Handle
  | Event.FreeLibrary h => if h ≠ 0 then some h else none
  | _ => none

def acquiredDC (tr : List Event) : List Handle := tr.filterMap Event.acquiredDC?
def releasedDC (tr : List Event) : List Handle := tr.filterMap Event.releasedDC?
def acquiredGraphics (tr : List Event) : List Handle := tr.filterMap Event.acquiredGraphics?
def releasedGraphics (tr : List Event) : List Handle := tr.filterMap Event.releasedGraphics?
def acquiredImages (tr : List Event) : List Handle := tr.filterMap Event.acquiredImage?
def releasedImages (tr : List Event) : List Handle := tr.filterMap Event.releasedImage?
def loadedModules (tr : List Event) : List Handle := tr.filterMap Event.loadedModule?
def freedModules (tr : List Event) : List Handle := tr.filterMap Event.freedModule?

/-- Whether an event is a call of the backend conversion. -/
def Event.isConvertCall : Event → Bool
  | Event.GdipConvertToEmfPlusToFile _ _ _ _ _ _ _ _ => true
  | _ => false

/-- Whether an event is a call of `ReleaseDC`. -/
def Event.isReleaseDC : Event → Bool
  | Event.ReleaseDC _ _ => true
  | _ => false

/-- Whether an event is a call of `GetDC`. -/
def Event.isGetDC : Event → Bool
  | Event.GetDC _ _ => true
  | _ => false

/-- Whether an event is a call of `LoadLibrary`. -/
def Event.isLoadLibrary : Event → Bool
  | Event.LoadLibrary _ _ => true
  | _ => false

/-- The response of the backend conversion to the request that
`__ConvertToEmfPlusToFile` issues. -/
def convertResponse (b : Backend) (gpGr gpEmf : Handle) (path : String) : ConvertResponse :=
  b.GdipConvertToEmfPlusToFile gpGr gpEmf path EmfType.EmfTypeEmfPlusOnly "EMFplus"

/-- The value of the local `gpEmf` after the load step. -/
def loadedEmf (b : Backend) (inP : String) : Handle :=
  if (b.GdipCreateMetafileFromFile inP).1 ≠ Gdiplus.Ok then 0
  else (b.GdipCreateMetafileFromFile inP).2

/-- The value of the local `gpGr` after the context step. -/
def createdGr (b : Backend) : Handle :=
  if (b.GdipCreateFromHDC (b.GetDC 0)).1 = Gdiplus.Ok then (b.GdipCreateFromHDC (b.GetDC 0)).2
  else 0

/-- Whether an event is a call of `GdipDisposeImage`. -/
def Event.isDisposeImage : Event → Bool
  | Event.GdipDisposeImage _ => true
  | _ => false

/-- The event with the `success` flag of a conversion response blanked out. -/
def Event.eraseSuccess : Event → Event
  | Event.GdipConvertToEmfPlusToFile g m f t d st _ out =>
      Event.GdipConvertToEmfPlusToFile g m f t d st false out
  | e => e

/-- The events of `ConvertAndSaveEmfToEmfPlus` between the opening `GetDC`
and the closing `ReleaseDC`, written step by step. -/
def runMiddle (b : Backend) (inP outP : String) : List Event :=
  [Event.GdipCreateMetafileFromFile inP (b.GdipCreateMetafileFromFile inP).1
    (b.GdipCreateMetafileFromFile inP).2] ++
  (if (b.GdipCreateMetafileFromFile inP).1 ≠ Gdiplus.Ok then
    [Event.wprintf ("[ERROR] Failed to open input file: " ++
      GetGdiPlusError (b.GdipCreateMetafileFromFile inP).1 ++ ".\n")] else []) ++
  [Event.GdipCreateFromHDC (b.GetDC 0) (b.GdipCreateFromHDC (b.GetDC 0)).1
    (b.GdipCreateFromHDC (b.GetDC 0)).2] ++
  (if (b.GdipCreateFromHDC (b.GetDC 0)).1 = Gdiplus.Ok then
    [Event.GdipSetPageUnit (b.GdipCreateFromHDC (b.GetDC 0)).2 Gdiplus.UnitPixel,
     Event.GdipSetSmoothingMode (b.GdipCreateFromHDC (b.GetDC 0)).2
       Gdiplus.SmoothingModeHighQuality,
     Event.GdipSetInterpolationMode (b.GdipCreateFromHDC (b.GetDC 0)).2
       Gdiplus.InterpolationModeHighQuality,
     Event.GdipSetPixelOffsetMode (b.GdipCreateFromHDC (b.GetDC 0)).2
       Gdiplus.PixelOffsetModeHighQuality]
   else
    [Event.wprintf ("[ERROR] Failed to initialize GDI+: " ++
      GetGdiPlusError (b.GdipCreateFromHDC (b.GetDC 0)).1 ++ ".\n")]) ++
  (if loadedEmf b inP ≠ 0 ∧ createdGr b ≠ 0 then
    (__ConvertToEmfPlusToFile b (createdGr b) (loadedEmf b inP) outP).2 ++
    [Event.wprintf
      (if (__ConvertToEmfPlusToFile b (createdGr b) (loadedEmf b inP) outP).1 = Gdiplus.Ok
       then "[OK] Conversion succeeded: " ++ outP ++ "\n"
       else "[ERROR] Conversion failed: " ++
        GetGdiPlusError (__ConvertToEmfPlusToFile b (createdGr b) (loadedEmf b inP) outP).1
          ++ ".\n")]
   else []) ++
  (if createdGr b ≠ 0 then [Event.GdipDeleteGraphics (createdGr b)] else []) ++
  (if loadedEmf b inP ≠ 0 then [Event.GdipDisposeImage (loadedEmf b inP)] else [])

/-- The load step succeeded: `GdipCreateMetafileFromFile` returned `Ok` and
handed back a metafile. -/
@[reducible] def Loaded (b : Backend) (inP : String) : Prop :=
  (b.GdipCreateMetafileFromFile inP).1 = Gdiplus.Ok ∧ (b.GdipCreateMetafileFromFile inP).2 ≠ 0

/-- The context step succeeded: `GdipCreateFromHDC` returned `Ok` and handed
back a graphics context. -/
@[reducible] def ContextCreated (b : Backend) : Prop :=
  (b.GdipCreateFromHDC (b.GetDC 0)).1 = Gdiplus.Ok ∧ (b.GdipCreateFromHDC (b.GetDC 0)).2 ≠ 0

/-- The conversion entry point is absent: `gdiplus.dll` does not load, or
`GdipConvertToEmfPlusToFile` is not resolved in it. -/
@[reducible] def EntryPointAbsent (b : Backend) : Prop :=
  b.LoadLibrary "gdiplus.dll" = 0 ∨
  b.GetProcAddress (b.LoadLibrary "gdiplus.dll") "GdipConvertToEmfPlusToFile" = false

/-- The backend `b` with the `success` out-parameter of every conversion
response replaced by `flag`; status and output handle are kept. -/
def Backend.withSuccess (b : Backend)
    (flag : Handle → Handle → String → EmfType → String → Bool) : Backend :=
  { b with
    GdipConvertToEmfPlusToFile := fun g m p t d =>
      { b.GdipConvertToEmfPlusToFile g m p t d with success := flag g m p t d } }

/-- The status codes that have an arm of their own in the `switch` of
`GetGdiPlusError`. -/
def listedCodes : List GpStatus :=
  [Gdiplus.Ok, Gdiplus.GenericError, Gdiplus.InvalidParameter, Gdiplus.OutOfMemory,
   Gdiplus.ObjectBusy, Gdiplus.InsufficientBuffer, Gdiplus.NotImplemented, Gdiplus.Win32Error,
   Gdiplus.WrongState, Gdiplus.Aborted, Gdiplus.FileNotFound, Gdiplus.ValueOverflow,
   Gdiplus.AccessDenied, Gdiplus.UnknownImageFormat, Gdiplus.FontFamilyNotFound,
   Gdiplus.FontStyleNotFound, Gdiplus.NotTrueTypeFont, Gdiplus.UnsupportedGdiplusVersion,
   Gdiplus.GdiplusNotInitialized, Gdiplus.PropertyNotFound, Gdiplus.PropertyNotSupported]

/-! ## Sample backends -/

/-- A backend on which every step succeeds. -/
def goodBackend : Backend where
  GetDC := fun _ => 7
  GdipCreateMetafileFromFile := fun _ => (Gdiplus.Ok, 11)
  GdipCreateFromHDC := fun _ => (Gdiplus.Ok, 12)
  LoadLibrary := fun _ => 5
  GetProcAddress := fun _ _ => true
  GdipConvertToEmfPlusToFile := fun _ _ _ _ _ => ⟨Gdiplus.Ok, true, 13⟩
  SetProcessDPIAware := true
  GdiplusStartup := (Gdiplus.Ok, 1)

/-- A backend on which the input file is missing and no context can be made. -/
def brokenBackend : Backend where
  GetDC := fun _ => 7
  GdipCreateMetafileFromFile := fun _ => (Gdiplus.FileNotFound, 0)
  GdipCreateFromHDC := fun _ => (Gdiplus.OutOfMemory, 0)
  LoadLibrary := fun _ => 5
  GetProcAddress := fun _ _ => true
  GdipConvertToEmfPlusToFile := fun _ _ _ _ _ => ⟨Gdiplus.Ok, true, 13⟩
  SetProcessDPIAware := true
  GdiplusStartup := (Gdiplus.Ok, 1)

/-- A backend whose `gdiplus.dll` lacks the conversion entry point. -/
def oldBackend : Backend where
  GetDC := fun _ => 7
  GdipCreateMetafileFromFile := fun _ => (Gdiplus.Ok, 11)
  GdipCreateFromHDC := fun _ => (Gdiplus.Ok, 12)
  LoadLibrary := fun _ => 5
  GetProcAddress := fun _ _ => false
  GdipConvertToEmfPlusToFile := fun _ _ _ _ _ => ⟨Gdiplus.Ok, true, 13⟩
  SetProcessDPIAware := false
  GdiplusStartup := (Gdiplus.Ok, 1)

/-! ## Theorems -/

/-- A conditional differs from `x` when both of its branches do. -/
theorem ite_ne_of {α : Type} (c : Prop) [Decidable c] (a b x : α) (ha : a ≠ x) (hb : b ≠ x) :
    (if c then a else b) ≠ x := by
  split <;> assumption

/-- The events of `__ConvertToEmfPlusToFile`, branch by branch. -/
theorem convert_trace_eq (b : Backend) (gpGr gpEmf : Handle) (path : String) :
    (__ConvertToEmfPlusToFile b gpGr gpEmf path).2 =
      [Event.LoadLibrary "gdiplus.dll" (b.LoadLibrary "gdiplus.dll")] ++
      (if b.LoadLibrary "gdiplus.dll" ≠ 0 then
        [Event.GetProcAddress (b.LoadLibrary "gdiplus.dll") "GdipConvertToEmfPlusToFile"
          (b.GetProcAddress (b.LoadLibrary "gdiplus.dll") "GdipConvertToEmfPlusToFile")] ++
        (if b.GetProcAddress (b.LoadLibrary "gdiplus.dll") "GdipConvertToEmfPlusToFile" = true then
          [Event.GdipConvertToEmfPlusToFile gpGr gpEmf path EmfType.EmfTypeEmfPlusOnly "EMFplus"
            (convertResponse b gpGr gpEmf path).status (convertResponse b gpGr gpEmf path).success
            (convertResponse b gpGr gpEmf path).outMetafile] ++
          (if (convertResponse b gpGr gpEmf path).status = Gdiplus.Ok then
            [Event.GdipDisposeImage (convertResponse b gpGr gpEmf path).outMetafile] else [])
         else []) ++
        [Event.FreeLibrary (b.LoadLibrary "gdiplus.dll")]
       else []) := by
  unfold __ConvertToEmfPlusToFile convertResponse
  split_ifs <;> simp_all

/-- The status `__ConvertToEmfPlusToFile` returns. -/
theorem convert_status_eq (b : Backend) (gpGr gpEmf : Handle) (path : String) :
    (__ConvertToEmfPlusToFile b gpGr gpEmf path).1 =
      if b.LoadLibrary "gdiplus.dll" ≠ 0 ∧
          b.GetProcAddress (b.LoadLibrary "gdiplus.dll") "GdipConvertToEmfPlusToFile" = true
      then (convertResponse b gpGr gpEmf path).status else Gdiplus.GdiplusNotInitialized := by
  by_cases h1 : b.LoadLibrary "gdiplus.dll" = 0 <;>
  by_cases h2 : b.GetProcAddress (b.LoadLibrary "gdiplus.dll") "GdipConvertToEmfPlusToFile" = true <;>
  by_cases h3 : (b.GdipConvertToEmfPlusToFile gpGr gpEmf path EmfType.EmfTypeEmfPlusOnly
      "EMFplus").status = Gdiplus.Ok <;>
  simp [__ConvertToEmfPlusToFile, convertResponse, h1, h2, h3]

/-- The events of `ConvertAndSaveEmfToEmfPlus`: `GetDC`, the middle part, `ReleaseDC`. -/
theorem run_trace_eq (b : Backend) (inP outP : String) :
    ConvertAndSaveEmfToEmfPlus b inP outP =
      Event.GetDC 0 (b.GetDC 0) :: (runMiddle b inP outP ++ [Event.ReleaseDC 0 (b.GetDC 0)]) := by
  unfold ConvertAndSaveEmfToEmfPlus runMiddle
  simp only [← loadedEmf.eq_1, ← createdGr.eq_1]
  split_ifs <;> simp_all

section ConvertObservations
variable (b : Backend) (gpGr gpEmf : Handle) (path : String)

/-- `__ConvertToEmfPlusToFile` obtains no display-surface handle. -/
theorem convert_acquiredDC :
    List.filterMap Event.acquiredDC? (__ConvertToEmfPlusToFile b gpGr gpEmf path).2 = [] := by
  rw [convert_trace_eq]
  split_ifs <;> simp [Event.acquiredDC?]

/-- `__ConvertToEmfPlusToFile` gives back no display-surface handle. -/
theorem convert_releasedDC :
    List.filterMap Event.releasedDC? (__ConvertToEmfPlusToFile b gpGr gpEmf path).2 = [] := by
  rw [convert_trace_eq]
  split_ifs <;> simp [Event.releasedDC?]

/-- `__ConvertToEmfPlusToFile` creates no graphics context. -/
theorem convert_acquiredGraphics :
    List.filterMap Event.acquiredGraphics? (__ConvertToEmfPlusToFile b gpGr gpEmf path).2 = [] := by
  rw [convert_trace_eq]
  split_ifs <;> simp [Event.acquiredGraphics?]

/-- `__ConvertToEmfPlusToFile` deletes no graphics context. -/
theorem convert_releasedGraphics :
    List.filterMap Event.releasedGraphics? (__ConvertToEmfPlusToFile b gpGr gpEmf path).2 = [] := by
  rw [convert_trace_eq]
  split_ifs <;> simp [Event.releasedGraphics?]

/-- Inside `__ConvertToEmfPlusToFile` the images disposed are the images obtained. -/
theorem convert_images_balanced :
    List.filterMap Event.releasedImage? (__ConvertToEmfPlusToFile b gpGr gpEmf path).2 =
      List.filterMap Event.acquiredImage? (__ConvertToEmfPlusToFile b gpGr gpEmf path).2 := by
  rw [convert_trace_eq]
  by_cases h0 : (convertResponse b gpGr gpEmf path).outMetafile = 0 <;>
  split_ifs <;> simp_all [Event.releasedImage?, Event.acquiredImage?]

/-- `__ConvertToEmfPlusToFile` prints nothing. -/
theorem convert_stdout :
    List.filterMap Event.text? (__ConvertToEmfPlusToFile b gpGr gpEmf path).2 = [] := by
  rw [convert_trace_eq]
  split_ifs <;> simp [Event.text?]

/-- `__ConvertToEmfPlusToFile` calls neither `GetDC` nor `ReleaseDC`. -/
theorem convert_no_dc_calls :
    List.filter Event.isReleaseDC (__ConvertToEmfPlusToFile b gpGr gpEmf path).2 = [] ∧
    List.filter Event.isGetDC (__ConvertToEmfPlusToFile b gpGr gpEmf path).2 = [] := by
  rw [convert_trace_eq]
  split_ifs <;> simp [Event.isReleaseDC, Event.isGetDC]

end ConvertObservations

/-- The conversion calls among the events of `__ConvertToEmfPlusToFile`. -/
theorem convert_calls_eq (b : Backend) (gpGr gpEmf : Handle) (path : String) :
    (__ConvertToEmfPlusToFile b gpGr gpEmf path).2.filter Event.isConvertCall =
      (if b.LoadLibrary "gdiplus.dll" ≠ 0 ∧
          b.GetProcAddress (b.LoadLibrary "gdiplus.dll") "GdipConvertToEmfPlusToFile" = true
       then [Event.GdipConvertToEmfPlusToFile gpGr gpEmf path EmfType.EmfTypeEmfPlusOnly
              "EMFplus" (convertResponse b gpGr gpEmf path).status
              (convertResponse b gpGr gpEmf path).success
              (convertResponse b gpGr gpEmf path).outMetafile]
       else []) := by
  rw [convert_trace_eq]
  by_cases h1 : b.LoadLibrary "gdiplus.dll" = 0 <;>
  by_cases h2 : b.GetProcAddress (b.LoadLibrary "gdiplus.dll")
      "GdipConvertToEmfPlusToFile" = true <;>
  by_cases h3 : (convertResponse b gpGr gpEmf path).status = Gdiplus.Ok <;>
  simp [h1, h2, h3, Event.isConvertCall]

/-- Two texts that differ within the first `n` characters of their fixed
leading parts are different, whatever follows. -/
theorem append_ne_of_take (a c x y z w : String) (n : Nat)
    (ha : n ≤ a.data.length) (hc : n ≤ c.data.length)
    (h : a.data.take n ≠ c.data.take n) : a ++ x ++ z ≠ c ++ y ++ w := by
  intro heq
  have h2 := congrArg (fun s => s.data.take n) heq
  simp only [String.data_append, List.append_assoc, List.take_append_of_le_length ha,
    List.take_append_of_le_length hc] at h2
  exact h h2

/-- The output of `ConvertAndSaveEmfToEmfPlus`: the load report, the context
report and the conversion result line, each present on its own condition. -/
theorem run_stdout_eq (b : Backend) (inP outP : String) :
    stdout (ConvertAndSaveEmfToEmfPlus b inP outP) =
      (if (b.GdipCreateMetafileFromFile inP).1 ≠ Gdiplus.Ok then
        ["[ERROR] Failed to open input file: " ++
          GetGdiPlusError (b.GdipCreateMetafileFromFile inP).1 ++ ".\n"] else []) ++
      (if (b.GdipCreateFromHDC (b.GetDC 0)).1 = Gdiplus.Ok then [] else
        ["[ERROR] Failed to initialize GDI+: " ++
          GetGdiPlusError (b.GdipCreateFromHDC (b.GetDC 0)).1 ++ ".\n"]) ++
      (if loadedEmf b inP ≠ 0 ∧ createdGr b ≠ 0 then
        [if (__ConvertToEmfPlusToFile b (createdGr b) (loadedEmf b inP) outP).1 = Gdiplus.Ok
         then "[OK] Conversion succeeded: " ++ outP ++ "\n"
         else "[ERROR] Conversion failed: " ++
          GetGdiPlusError (__ConvertToEmfPlusToFile b (createdGr b) (loadedEmf b inP) outP).1
            ++ ".\n"]
       else []) := by
  rw [run_trace_eq, runMiddle]
  simp only [stdout, List.filterMap_append, apply_ite (List.filterMap _), List.filterMap_cons,
    List.filterMap_nil, Event.text?, convert_stdout, ite_self, List.append_nil,
    List.nil_append]

section SuccessFlag
variable (b : Backend) (flag : Handle → Handle → String → EmfType → String → Bool)
variable (gpGr gpEmf : Handle) (inP outP : String)

/-- Replacing the `success` flag does not change the status returned. -/
theorem withSuccess_convert_status :
    (__ConvertToEmfPlusToFile (b.withSuccess flag) gpGr gpEmf outP).1 =
      (__ConvertToEmfPlusToFile b gpGr gpEmf outP).1 := by
  rw [convert_status_eq, convert_status_eq]
  rfl

/-- Replacing the `success` flag changes the events of
`__ConvertToEmfPlusToFile` in the recorded flag only. -/
theorem withSuccess_convert_trace :
    (__ConvertToEmfPlusToFile (b.withSuccess flag) gpGr gpEmf outP).2.map Event.eraseSuccess =
      (__ConvertToEmfPlusToFile b gpGr gpEmf outP).2.map Event.eraseSuccess := by
  rw [convert_trace_eq, convert_trace_eq]
  simp only [Backend.withSuccess, convertResponse]
  split_ifs <;> simp [Event.eraseSuccess]

/-- Replacing the `success` flag does not change the `GdipDisposeImage` calls
of `__ConvertToEmfPlusToFile`. -/
theorem withSuccess_convert_dispose :
    (__ConvertToEmfPlusToFile (b.withSuccess flag) gpGr gpEmf outP).2.filter
        Event.isDisposeImage =
      (__ConvertToEmfPlusToFile b gpGr gpEmf outP).2.filter Event.isDisposeImage := by
  rw [convert_trace_eq, convert_trace_eq]
  simp only [Backend.withSuccess, convertResponse]
  split_ifs <;> simp [Event.isDisposeImage]

/-- Replacing the `success` flag changes the events of the run in the
recorded flag only. -/
theorem withSuccess_run_trace :
    (ConvertAndSaveEmfToEmfPlus (b.withSuccess flag) inP outP).map Event.eraseSuccess =
      (ConvertAndSaveEmfToEmfPlus b inP outP).map Event.eraseSuccess := by
  have hE : loadedEmf (b.withSuccess flag) inP = loadedEmf b inP := rfl
  have hG : createdGr (b.withSuccess flag) = createdGr b := rfl
  rw [run_trace_eq, run_trace_eq, runMiddle, runMiddle, hE, hG]
  simp only [List.map_cons, List.map_append, apply_ite (List.map _), List.map_nil,
    withSuccess_convert_trace, withSuccess_convert_status]
  rfl

/-- Replacing the `success` flag does not change the output of the run. -/
theorem withSuccess_run_stdout :
    stdout (ConvertAndSaveEmfToEmfPlus (b.withSuccess flag) inP outP) =
      stdout (ConvertAndSaveEmfToEmfPlus b inP outP) := by
  have hE : loadedEmf (b.withSuccess flag) inP = loadedEmf b inP := rfl
  have hG : createdGr (b.withSuccess flag) = createdGr b := rfl
  rw [run_stdout_eq, run_stdout_eq, hE, hG, withSuccess_convert_status]
  rfl

end SuccessFlag

/-- The output of the run when the load and the context creation both succeed. -/
theorem conversion_result_line_aux (b : Backend) (inP outP : String)
    (hL : Loaded b inP) (hC : ContextCreated b) :
    stdout (ConvertAndSaveEmfToEmfPlus b inP outP) =
      [if (__ConvertToEmfPlusToFile b (b.GdipCreateFromHDC (b.GetDC 0)).2
            (b.GdipCreateMetafileFromFile inP).2 outP).1 = Gdiplus.Ok
       then "[OK] Conversion succeeded: " ++ outP ++ "\n"
       else "[ERROR] Conversion failed: " ++
         GetGdiPlusError (__ConvertToEmfPlusToFile b (b.GdipCreateFromHDC (b.GetDC 0)).2
            (b.GdipCreateMetafileFromFile inP).2 outP).1 ++ ".\n"] := by
  obtain ⟨hL1, hL2⟩ := hL
  obtain ⟨hC1, hC2⟩ := hC
  have hE : loadedEmf b inP = (b.GdipCreateMetafileFromFile inP).2 := by simp [loadedEmf, hL1]
  have hG : createdGr b = (b.GdipCreateFromHDC (b.GetDC 0)).2 := by simp [createdGr, hC1]
  rw [run_stdout_eq]
  simp only [hE, hG, hL1, hC1, hL2, hC2, ne_eq, not_true_eq_false, not_false_eq_true,
    and_self, if_true, if_false, List.append_nil, List.nil_append]

/-- C3: `GetGdiPlusError` is defined on every integer status value, its
message is never empty, and every value without an arm of its own in the
`switch` gets the message "Unknown error". -/
theorem GetGdiPlusError_total (status : GpStatus) :
    GetGdiPlusError status ≠ "" ∧
    (status ∉ listedCodes → GetGdiPlusError status = "Unknown error") := by
  constructor
  · unfold GetGdiPlusError
    repeat' first | apply ite_ne_of | decide
  · intro h
    simp only [listedCodes, List.mem_cons, List.mem_singleton, not_or, List.not_mem_nil,
      or_false] at h
    obtain ⟨h0, h1, h2, h3, h4, h5, h6, h7, h8, h9, h10, h11, h12, h13, h14, h15, h16, h17,
      h18, h19, h20⟩ := h
    unfold GetGdiPlusError
    rw [if_neg h0, if_neg h1, if_neg h2, if_neg h3, if_neg h4, if_neg h5, if_neg h6,
      if_neg h7, if_neg h8, if_neg h9, if_neg h10, if_neg h11, if_neg h12, if_neg h13,
      if_neg h14, if_neg h15, if_neg h16, if_neg h17, if_neg h18, if_neg h19, if_neg h20]

/-- Witness for C3 at the value 21, which has no arm in the `switch`. -/
theorem GetGdiPlusError_total_witness :
    (21 : GpStatus) ∉ listedCodes ∧ GetGdiPlusError 21 = "Unknown error" :=
  ⟨by decide, (GetGdiPlusError_total 21).2 (by decide)⟩

/-- C8: `wmain` returns 0 for every argument count, every argument vector
and every behaviour of the backend. -/
theorem wmain_exit_code (b : Backend) (argc : Int) (argv : List String) :
    (wmain b argc argv).1 = 0 := by
  unfold wmain
  split_ifs <;> rfl

/-- C1: in one run of `ConvertAndSaveEmfToEmfPlus`, whatever the backend
answers, the display-surface handles given back are exactly those obtained,
`ReleaseDC` is called exactly once and on the handle `GetDC` returned, the
graphics contexts deleted are exactly those created (at most one), and the
images disposed are, up to order, exactly the images obtained; a handle
whose acquisition failed is in none of the acquired lists and so is not
released. -/
theorem resource_symmetry (b : Backend) (inP outP : String) :
    releasedDC (ConvertAndSaveEmfToEmfPlus b inP outP)
      = acquiredDC (ConvertAndSaveEmfToEmfPlus b inP outP) ∧
    (ConvertAndSaveEmfToEmfPlus b inP outP).filter Event.isReleaseDC
      = [Event.ReleaseDC 0 (b.GetDC 0)] ∧
    (ConvertAndSaveEmfToEmfPlus b inP outP).filter Event.isGetDC
      = [Event.GetDC 0 (b.GetDC 0)] ∧
    releasedGraphics (ConvertAndSaveEmfToEmfPlus b inP outP)
      = acquiredGraphics (ConvertAndSaveEmfToEmfPlus b inP outP) ∧
    (acquiredGraphics (ConvertAndSaveEmfToEmfPlus b inP outP)).length ≤ 1 ∧
    (releasedImages (ConvertAndSaveEmfToEmfPlus b inP outP)).Perm
      (acquiredImages (ConvertAndSaveEmfToEmfPlus b inP outP)) := by
  rw [run_trace_eq, runMiddle]
  refine ⟨?_, ?_, ?_, ?_, ?_, ?_⟩
  · simp only [releasedDC, acquiredDC, List.filterMap_append,
      apply_ite (List.filterMap _), List.filterMap_cons, List.filterMap_nil,
      Event.releasedDC?, Event.acquiredDC?, convert_acquiredDC, convert_releasedDC, ite_self,
      List.append_nil, List.nil_append]
  · simp only [List.filter_append, List.filter_cons, List.filter_nil,
      apply_ite (List.filter _), Event.isReleaseDC, (convert_no_dc_calls _ _ _ _).1]
    simp
  · simp only [List.filter_append, List.filter_cons, List.filter_nil,
      apply_ite (List.filter _), Event.isGetDC, (convert_no_dc_calls _ _ _ _).2]
    simp
  · simp only [releasedGraphics, acquiredGraphics, List.filterMap_append,
      apply_ite (List.filterMap _), List.filterMap_cons, List.filterMap_nil,
      Event.releasedGraphics?, Event.acquiredGraphics?, convert_acquiredGraphics,
      convert_releasedGraphics, ite_self, List.append_nil, List.nil_append]
    by_cases h0 : (b.GdipCreateFromHDC (b.GetDC 0)).1 = Gdiplus.Ok <;>
    by_cases h1 : (b.GdipCreateFromHDC (b.GetDC 0)).2 = 0 <;>
    simp [createdGr, h0, h1]
  · simp only [acquiredGraphics, List.filterMap_append,
      apply_ite (List.filterMap _), List.filterMap_cons, List.filterMap_nil,
      Event.acquiredGraphics?, convert_acquiredGraphics, ite_self, List.append_nil,
      List.nil_append]
    split <;> simp
  · simp only [releasedImages, acquiredImages, List.filterMap_append,
      apply_ite (List.filterMap _), List.filterMap_cons, List.filterMap_nil,
      Event.releasedImage?, Event.acquiredImage?, convert_images_balanced, ite_self,
      List.append_nil, List.nil_append]
    by_cases h0 : (b.GdipCreateMetafileFromFile inP).1 = Gdiplus.Ok <;>
    by_cases h1 : (b.GdipCreateMetafileFromFile inP).2 = 0 <;>
    simp [loadedEmf, h0, h1, List.perm_append_singleton]

/-- C9: the trace of one run of `ConvertAndSaveEmfToEmfPlus` starts with the
`GetDC` call and ends with the `ReleaseDC` call on the handle `GetDC`
returned; between them there is no further `GetDC` or `ReleaseDC`, and every
graphics context the run creates is deleted in that middle part, hence
strictly before the display surface is released. -/
theorem release_order (b : Backend) (inP outP : String) :
    ∃ mid : List Event,
      ConvertAndSaveEmfToEmfPlus b inP outP =
        Event.GetDC 0 (b.GetDC 0) :: (mid ++ [Event.ReleaseDC 0 (b.GetDC 0)]) ∧
      mid.filter Event.isReleaseDC = [] ∧
      mid.filter Event.isGetDC = [] ∧
      releasedGraphics mid = acquiredGraphics (ConvertAndSaveEmfToEmfPlus b inP outP) := by
  refine ⟨runMiddle b inP outP, run_trace_eq b inP outP, ?_, ?_, ?_⟩
  · simp only [runMiddle, List.filter_append, List.filter_cons, List.filter_nil,
      apply_ite (List.filter _), Event.isReleaseDC, (convert_no_dc_calls _ _ _ _).1]
    simp
  · simp only [runMiddle, List.filter_append, List.filter_cons, List.filter_nil,
      apply_ite (List.filter _), Event.isGetDC, (convert_no_dc_calls _ _ _ _).2]
    simp
  · rw [run_trace_eq]
    simp only [runMiddle, releasedGraphics, acquiredGraphics, List.filterMap_append,
      apply_ite (List.filterMap _), List.filterMap_cons, List.filterMap_nil,
      Event.releasedGraphics?, Event.acquiredGraphics?, convert_acquiredGraphics,
      convert_releasedGraphics, ite_self, List.append_nil, List.nil_append]
    by_cases h0 : (b.GdipCreateFromHDC (b.GetDC 0)).1 = Gdiplus.Ok <;>
    by_cases h1 : (b.GdipCreateFromHDC (b.GetDC 0)).2 = 0 <;>
    simp [createdGr, h0, h1]

/-- C2: if the metafile load or the context creation returns a status other
than `Ok`, the run of `ConvertAndSaveEmfToEmfPlus` contains no call of the
backend conversion and no `LoadLibrary` call (the first thing
`__ConvertToEmfPlusToFile` does), so the conversion engine is not entered and
no request that writes the destination path is issued. -/
theorem no_conversion_after_failure (b : Backend) (inP outP : String)
    (h : (b.GdipCreateMetafileFromFile inP).1 ≠ Gdiplus.Ok ∨
         (b.GdipCreateFromHDC (b.GetDC 0)).1 ≠ Gdiplus.Ok) :
    (ConvertAndSaveEmfToEmfPlus b inP outP).filter Event.isConvertCall = [] ∧
    (ConvertAndSaveEmfToEmfPlus b inP outP).filter Event.isLoadLibrary = [] := by
  have hc : ¬ (loadedEmf b inP ≠ 0 ∧ createdGr b ≠ 0) := by
    rcases h with h | h
    · simp [loadedEmf, h]
    · simp [createdGr, h]
  rw [run_trace_eq, runMiddle, if_neg hc]
  constructor
  · simp only [List.filter_append, List.filter_cons, List.filter_nil,
      apply_ite (List.filter _), Event.isConvertCall]
    simp
  · simp only [List.filter_append, List.filter_cons, List.filter_nil,
      apply_ite (List.filter _), Event.isLoadLibrary]
    simp

/-- Witness for C2: a missing input file on the sample backend. -/
theorem no_conversion_after_failure_witness :
    ((brokenBackend.GdipCreateMetafileFromFile "missing.emf").1 ≠ Gdiplus.Ok ∨
       (brokenBackend.GdipCreateFromHDC (brokenBackend.GetDC 0)).1 ≠ Gdiplus.Ok) ∧
    (ConvertAndSaveEmfToEmfPlus brokenBackend "missing.emf" "out.emf").filter
      Event.isConvertCall = [] ∧
    (ConvertAndSaveEmfToEmfPlus brokenBackend "missing.emf" "out.emf").filter
      Event.isLoadLibrary = [] :=
  ⟨Or.inl (by decide),
   no_conversion_after_failure brokenBackend "missing.emf" "out.emf" (Or.inl (by decide))⟩

/-- C4: the conversion calls in the trace of `__ConvertToEmfPlusToFile` are
exactly one call when `gdiplus.dll` loads and the entry point resolves, and
none otherwise; every conversion call in the trace carries the graphics
handle, the metafile handle and the destination path the function was
given, the encoding type `EmfTypeEmfPlusOnly` (neither `EmfTypeEmfOnly` nor
`EmfTypeEmfPlusDual`) and the description "EMFplus". -/
theorem convert_request (b : Backend) (gpGr gpEmf : Handle) (path : String) :
    (__ConvertToEmfPlusToFile b gpGr gpEmf path).2.filter Event.isConvertCall =
      (if b.LoadLibrary "gdiplus.dll" ≠ 0 ∧
          b.GetProcAddress (b.LoadLibrary "gdiplus.dll") "GdipConvertToEmfPlusToFile" = true
       then [Event.GdipConvertToEmfPlusToFile gpGr gpEmf path EmfType.EmfTypeEmfPlusOnly
              "EMFplus" (convertResponse b gpGr gpEmf path).status
              (convertResponse b gpGr gpEmf path).success
              (convertResponse b gpGr gpEmf path).outMetafile]
       else []) ∧
    (∀ g m f t d st su out,
      Event.GdipConvertToEmfPlusToFile g m f t d st su out ∈
          (__ConvertToEmfPlusToFile b gpGr gpEmf path).2 →
        g = gpGr ∧ m = gpEmf ∧ f = path ∧ t = EmfType.EmfTypeEmfPlusOnly ∧
        t ≠ EmfType.EmfTypeEmfOnly ∧ t ≠ EmfType.EmfTypeEmfPlusDual ∧ d = "EMFplus") := by
  refine ⟨convert_calls_eq b gpGr gpEmf path, ?_⟩
  rw [convert_trace_eq]
  · intro g m f t d st su out hmem
    by_cases h1 : b.LoadLibrary "gdiplus.dll" = 0 <;>
    by_cases h2 : b.GetProcAddress (b.LoadLibrary "gdiplus.dll")
        "GdipConvertToEmfPlusToFile" = true <;>
    by_cases h3 : (convertResponse b gpGr gpEmf path).status = Gdiplus.Ok <;>
    simp [h1, h2, h3] at hmem <;>
    (obtain ⟨rfl, rfl, rfl, rfl, rfl, -⟩ := hmem; simp)

/-- Witness for C4: on the sample backend the request is issued and carries
the arguments given. -/
theorem convert_request_witness :
    Event.GdipConvertToEmfPlusToFile 12 11 "out.emf" EmfType.EmfTypeEmfPlusOnly "EMFplus"
        Gdiplus.Ok true 13 ∈ (__ConvertToEmfPlusToFile goodBackend 12 11 "out.emf").2 ∧
    ((12 : Handle) = 12 ∧ (11 : Handle) = 11 ∧ "out.emf" = "out.emf" ∧
      EmfType.EmfTypeEmfPlusOnly = EmfType.EmfTypeEmfPlusOnly ∧
      EmfType.EmfTypeEmfPlusOnly ≠ EmfType.EmfTypeEmfOnly ∧
      EmfType.EmfTypeEmfPlusOnly ≠ EmfType.EmfTypeEmfPlusDual ∧ "EMFplus" = "EMFplus") :=
  ⟨by decide,
   (convert_request goodBackend 12 11 "out.emf").2 12 11 "out.emf"
     EmfType.EmfTypeEmfPlusOnly "EMFplus" Gdiplus.Ok true 13 (by decide)⟩

/-- C5: when the load returns a status `s1` other than `Ok`, the run still
calls `GdipCreateFromHDC`, right after reporting the load failure; when the
context creation returns a status `s2` other than `Ok` as well, the whole
run is `GetDC`, the load, its report, the context creation, its report and
`ReleaseDC`, and the output is the two report lines in that order. -/
theorem collect_both_failures (b : Backend) (inP outP : String)
    (h1 : (b.GdipCreateMetafileFromFile inP).1 ≠ Gdiplus.Ok) :
    (∃ rest : List Event,
      ConvertAndSaveEmfToEmfPlus b inP outP =
        [Event.GetDC 0 (b.GetDC 0),
         Event.GdipCreateMetafileFromFile inP (b.GdipCreateMetafileFromFile inP).1
           (b.GdipCreateMetafileFromFile inP).2,
         Event.wprintf ("[ERROR] Failed to open input file: " ++
           GetGdiPlusError (b.GdipCreateMetafileFromFile inP).1 ++ ".\n"),
         Event.GdipCreateFromHDC (b.GetDC 0) (b.GdipCreateFromHDC (b.GetDC 0)).1
           (b.GdipCreateFromHDC (b.GetDC 0)).2] ++ rest) ∧
    ((b.GdipCreateFromHDC (b.GetDC 0)).1 ≠ Gdiplus.Ok →
      ConvertAndSaveEmfToEmfPlus b inP outP =
        [Event.GetDC 0 (b.GetDC 0),
         Event.GdipCreateMetafileFromFile inP (b.GdipCreateMetafileFromFile inP).1
           (b.GdipCreateMetafileFromFile inP).2,
         Event.wprintf ("[ERROR] Failed to open input file: " ++
           GetGdiPlusError (b.GdipCreateMetafileFromFile inP).1 ++ ".\n"),
         Event.GdipCreateFromHDC (b.GetDC 0) (b.GdipCreateFromHDC (b.GetDC 0)).1
           (b.GdipCreateFromHDC (b.GetDC 0)).2,
         Event.wprintf ("[ERROR] Failed to initialize GDI+: " ++
           GetGdiPlusError (b.GdipCreateFromHDC (b.GetDC 0)).1 ++ ".\n"),
         Event.ReleaseDC 0 (b.GetDC 0)] ∧
      stdout (ConvertAndSaveEmfToEmfPlus b inP outP) =
        ["[ERROR] Failed to open input file: " ++
           GetGdiPlusError (b.GdipCreateMetafileFromFile inP).1 ++ ".\n",
         "[ERROR] Failed to initialize GDI+: " ++
           GetGdiPlusError (b.GdipCreateFromHDC (b.GetDC 0)).1 ++ ".\n"]) := by
  have hE : loadedEmf b inP = 0 := by simp [loadedEmf, h1]
  constructor
  · rw [run_trace_eq, runMiddle]
    simp only [h1, hE, ne_eq, not_false_eq_true, not_true_eq_false, false_and, if_true,
      if_false, List.append_nil, List.cons_append, List.nil_append, List.append_assoc]
    exact ⟨_, rfl⟩
  · intro h2
    have hG : createdGr b = 0 := by simp [createdGr, h2]
    have hT : ConvertAndSaveEmfToEmfPlus b inP outP =
        [Event.GetDC 0 (b.GetDC 0),
         Event.GdipCreateMetafileFromFile inP (b.GdipCreateMetafileFromFile inP).1
           (b.GdipCreateMetafileFromFile inP).2,
         Event.wprintf ("[ERROR] Failed to open input file: " ++
           GetGdiPlusError (b.GdipCreateMetafileFromFile inP).1 ++ ".\n"),
         Event.GdipCreateFromHDC (b.GetDC 0) (b.GdipCreateFromHDC (b.GetDC 0)).1
           (b.GdipCreateFromHDC (b.GetDC 0)).2,
         Event.wprintf ("[ERROR] Failed to initialize GDI+: " ++
           GetGdiPlusError (b.GdipCreateFromHDC (b.GetDC 0)).1 ++ ".\n"),
         Event.ReleaseDC 0 (b.GetDC 0)] := by
      rw [run_trace_eq, runMiddle]
      simp [h1, h2, hE, hG]
    refine ⟨hT, ?_⟩
    rw [hT]
    simp [stdout, Event.text?]

/-- Witness for C5: the input file is missing and no context can be made;
both failures are reported, the load failure first. -/
theorem collect_both_failures_witness :
    (brokenBackend.GdipCreateMetafileFromFile "missing.emf").1 ≠ Gdiplus.Ok ∧
    (brokenBackend.GdipCreateFromHDC (brokenBackend.GetDC 0)).1 ≠ Gdiplus.Ok ∧
    stdout (ConvertAndSaveEmfToEmfPlus brokenBackend "missing.emf" "out.emf") =
      ["[ERROR] Failed to open input file: " ++ GetGdiPlusError Gdiplus.FileNotFound ++ ".\n",
       "[ERROR] Failed to initialize GDI+: " ++ GetGdiPlusError Gdiplus.OutOfMemory ++ ".\n"] :=
  ⟨by decide, by decide,
   ((collect_both_failures brokenBackend "missing.emf" "out.emf" (by decide)).2
      (by decide)).2⟩

/-- C6: when the load and the context creation both succeed, the output of
the run is exactly one line: with `s` the status `__ConvertToEmfPlusToFile`
returns, it is "[OK] Conversion succeeded: <path>" when `s` is `Ok` and
"[ERROR] Conversion failed: <GetGdiPlusError s>." otherwise; it is the
success line only if `s` is `Ok`; and no line reporting a load or context
failure is printed. -/
theorem conversion_result_line (b : Backend) (inP outP : String)
    (hL : Loaded b inP) (hC : ContextCreated b) :
    stdout (ConvertAndSaveEmfToEmfPlus b inP outP) =
      [if (__ConvertToEmfPlusToFile b (b.GdipCreateFromHDC (b.GetDC 0)).2
            (b.GdipCreateMetafileFromFile inP).2 outP).1 = Gdiplus.Ok
       then "[OK] Conversion succeeded: " ++ outP ++ "\n"
       else "[ERROR] Conversion failed: " ++
         GetGdiPlusError (__ConvertToEmfPlusToFile b (b.GdipCreateFromHDC (b.GetDC 0)).2
            (b.GdipCreateMetafileFromFile inP).2 outP).1 ++ ".\n"] ∧
    (stdout (ConvertAndSaveEmfToEmfPlus b inP outP) =
        ["[OK] Conversion succeeded: " ++ outP ++ "\n"] ↔
      (__ConvertToEmfPlusToFile b (b.GdipCreateFromHDC (b.GetDC 0)).2
        (b.GdipCreateMetafileFromFile inP).2 outP).1 = Gdiplus.Ok) ∧
    (∀ reason : String,
      "[ERROR] Failed to open input file: " ++ reason ++ ".\n" ∉
        stdout (ConvertAndSaveEmfToEmfPlus b inP outP) ∧
      "[ERROR] Failed to initialize GDI+: " ++ reason ++ ".\n" ∉
        stdout (ConvertAndSaveEmfToEmfPlus b inP outP)) := by
  have hS := conversion_result_line_aux b inP outP hL hC
  refine ⟨hS, ?_, ?_⟩
  · rw [hS]
    constructor
    · intro h
      by_contra hne
      rw [if_neg hne] at h
      exact append_ne_of_take "[OK] Conversion succeeded: " "[ERROR] Conversion failed: "
        outP _ "\n" ".\n" 2 (by decide) (by decide) (by decide) (List.cons.inj h).1.symm
    · intro h
      rw [if_pos h]
  · intro reason
    rw [hS]
    simp only [List.mem_singleton]
    constructor <;> split
    · exact append_ne_of_take _ _ _ _ _ _ 9 (by decide) (by decide) (by decide)
    · exact append_ne_of_take _ _ _ _ _ _ 9 (by decide) (by decide) (by decide)
    · exact append_ne_of_take _ _ _ _ _ _ 9 (by decide) (by decide) (by decide)
    · exact append_ne_of_take _ _ _ _ _ _ 9 (by decide) (by decide) (by decide)

/-- Witness for C6: on the sample backend every step succeeds and the single
output line is the success line. -/
theorem conversion_result_line_witness :
    Loaded goodBackend "a.emf" ∧ ContextCreated goodBackend ∧
    stdout (ConvertAndSaveEmfToEmfPlus goodBackend "a.emf" "a_out.emf") =
      ["[OK] Conversion succeeded: " ++ "a_out.emf" ++ "\n"] :=
  ⟨by decide, by decide,
   (conversion_result_line goodBackend "a.emf" "a_out.emf" (by decide) (by decide)).2.1.2
     (by decide)⟩

/-- C7: when `gdiplus.dll` does not load or the conversion entry point is
not resolved in it, `__ConvertToEmfPlusToFile` returns
`GdiplusNotInitialized`, which is not `Ok`, for every input, without any
call of the backend conversion; the module is freed exactly once if it was
loaded and not at all otherwise; the run never prints a success line, and
when the load and the context creation succeed its output is the single
line "[ERROR] Conversion failed: GDI+ not initialized.". -/
theorem missing_entry_point (b : Backend) (gpGr gpEmf : Handle) (path inP outP : String)
    (h : EntryPointAbsent b) :
    (__ConvertToEmfPlusToFile b gpGr gpEmf path).1 = Gdiplus.GdiplusNotInitialized ∧
    (__ConvertToEmfPlusToFile b gpGr gpEmf path).1 ≠ Gdiplus.Ok ∧
    (__ConvertToEmfPlusToFile b gpGr gpEmf path).2.filter Event.isConvertCall = [] ∧
    freedModules (__ConvertToEmfPlusToFile b gpGr gpEmf path).2 =
      loadedModules (__ConvertToEmfPlusToFile b gpGr gpEmf path).2 ∧
    loadedModules (__ConvertToEmfPlusToFile b gpGr gpEmf path).2 =
      (if b.LoadLibrary "gdiplus.dll" ≠ 0 then [b.LoadLibrary "gdiplus.dll"] else []) ∧
    (∀ p : String, "[OK] Conversion succeeded: " ++ p ++ "\n" ∉
      stdout (ConvertAndSaveEmfToEmfPlus b inP outP)) ∧
    (Loaded b inP → ContextCreated b →
      stdout (ConvertAndSaveEmfToEmfPlus b inP outP) =
        ["[ERROR] Conversion failed: " ++ GetGdiPlusError Gdiplus.GdiplusNotInitialized
          ++ ".\n"] ∧
      GetGdiPlusError Gdiplus.GdiplusNotInitialized = "GDI+ not initialized") := by
  have hcond : ¬ (b.LoadLibrary "gdiplus.dll" ≠ 0 ∧
      b.GetProcAddress (b.LoadLibrary "gdiplus.dll") "GdipConvertToEmfPlusToFile" = true) := by
    rcases h with h | h
    · simp [h]
    · simp [h]
  have hst : ∀ g m p, (__ConvertToEmfPlusToFile b g m p).1 = Gdiplus.GdiplusNotInitialized := by
    intro g m p
    rw [convert_status_eq, if_neg hcond]
  have hne : Gdiplus.GdiplusNotInitialized ≠ Gdiplus.Ok := by decide
  refine ⟨hst _ _ _, by rw [hst]; exact hne, ?_, ?_, ?_, ?_, ?_⟩
  · rw [convert_calls_eq, if_neg hcond]
  · rw [convert_trace_eq]
    by_cases h1 : b.LoadLibrary "gdiplus.dll" = 0 <;>
    by_cases h2 : b.GetProcAddress (b.LoadLibrary "gdiplus.dll")
        "GdipConvertToEmfPlusToFile" = true <;>
    by_cases h3 : (convertResponse b gpGr gpEmf path).status = Gdiplus.Ok <;>
    simp [h1, h2, h3, freedModules, loadedModules, Event.freedModule?, Event.loadedModule?]
  · rw [convert_trace_eq]
    by_cases h1 : b.LoadLibrary "gdiplus.dll" = 0 <;>
    by_cases h2 : b.GetProcAddress (b.LoadLibrary "gdiplus.dll")
        "GdipConvertToEmfPlusToFile" = true <;>
    by_cases h3 : (convertResponse b gpGr gpEmf path).status = Gdiplus.Ok <;>
    simp [h1, h2, h3, loadedModules, Event.loadedModule?]
  · intro p
    rw [run_stdout_eq, hst, if_neg hne]
    simp only [List.mem_append, not_or]
    refine ⟨⟨?_, ?_⟩, ?_⟩
    · split
      · simp only [List.mem_singleton]
        exact append_ne_of_take _ _ _ _ _ _ 2 (by decide) (by decide) (by decide)
      · simp
    · split
      · simp
      · simp only [List.mem_singleton]
        exact append_ne_of_take _ _ _ _ _ _ 2 (by decide) (by decide) (by decide)
    · split
      · simp only [List.mem_singleton]
        exact append_ne_of_take _ _ _ _ _ _ 2 (by decide) (by decide) (by decide)
      · simp
  · intro hL hC
    have hlines := (conversion_result_line_aux b inP outP hL hC)
    rw [hst, if_neg hne] at hlines
    exact ⟨hlines, by decide⟩

/-- Witness for C7: a backend whose `gdiplus.dll` lacks the entry point. -/
theorem missing_entry_point_witness :
    EntryPointAbsent oldBackend ∧ Loaded oldBackend "a.emf" ∧ ContextCreated oldBackend ∧
    (__ConvertToEmfPlusToFile oldBackend 12 11 "out.emf").1 ≠ Gdiplus.Ok ∧
    stdout (ConvertAndSaveEmfToEmfPlus oldBackend "a.emf" "out.emf") =
      ["[ERROR] Conversion failed: " ++ GetGdiPlusError Gdiplus.GdiplusNotInitialized
        ++ ".\n"] :=
  ⟨by decide, by decide, by decide,
   (missing_entry_point oldBackend 12 11 "out.emf" "a.emf" "out.emf" (by decide)).2.1,
   ((missing_entry_point oldBackend 12 11 "out.emf" "a.emf" "out.emf" (by decide)).2.2.2.2.2.2
      (by decide) (by decide)).1⟩

/-- C10: two backends that differ only in the `success` flag of the
conversion response make `__ConvertToEmfPlusToFile` return the same status,
dispose the same images and produce the same events up to the recorded
flag, and make `ConvertAndSaveEmfToEmfPlus` produce the same events up to
the recorded flag and the same output; a response with status `Ok` and
`success = FALSE` is reported as "[OK] Conversion succeeded: <path>". -/
theorem success_flag_ignored (b : Backend)
    (flag1 flag2 : Handle → Handle → String → EmfType → String → Bool)
    (gpGr gpEmf : Handle) (inP outP : String) :
    (__ConvertToEmfPlusToFile (b.withSuccess flag1) gpGr gpEmf outP).1 =
      (__ConvertToEmfPlusToFile (b.withSuccess flag2) gpGr gpEmf outP).1 ∧
    (__ConvertToEmfPlusToFile (b.withSuccess flag1) gpGr gpEmf outP).2.filter
        Event.isDisposeImage =
      (__ConvertToEmfPlusToFile (b.withSuccess flag2) gpGr gpEmf outP).2.filter
        Event.isDisposeImage ∧
    (__ConvertToEmfPlusToFile (b.withSuccess flag1) gpGr gpEmf outP).2.map Event.eraseSuccess =
      (__ConvertToEmfPlusToFile (b.withSuccess flag2) gpGr gpEmf outP).2.map
        Event.eraseSuccess ∧
    (ConvertAndSaveEmfToEmfPlus (b.withSuccess flag1) inP outP).map Event.eraseSuccess =
      (ConvertAndSaveEmfToEmfPlus (b.withSuccess flag2) inP outP).map Event.eraseSuccess ∧
    stdout (ConvertAndSaveEmfToEmfPlus (b.withSuccess flag1) inP outP) =
      stdout (ConvertAndSaveEmfToEmfPlus (b.withSuccess flag2) inP outP) ∧
    (Loaded b inP → ContextCreated b → ¬ EntryPointAbsent b →
      (convertResponse b (b.GdipCreateFromHDC (b.GetDC 0)).2
        (b.GdipCreateMetafileFromFile inP).2 outP).status = Gdiplus.Ok →
      stdout (ConvertAndSaveEmfToEmfPlus (b.withSuccess fun _ _ _ _ _ => false) inP outP) =
        ["[OK] Conversion succeeded: " ++ outP ++ "\n"]) := by
  refine ⟨?_, ?_, ?_, ?_, ?_, ?_⟩
  · rw [withSuccess_convert_status, withSuccess_convert_status]
  · rw [withSuccess_convert_dispose, withSuccess_convert_dispose]
  · rw [withSuccess_convert_trace, withSuccess_convert_trace]
  · rw [withSuccess_run_trace, withSuccess_run_trace]
  · rw [withSuccess_run_stdout, withSuccess_run_stdout]
  · intro hL hC hP hOk
    rw [withSuccess_run_stdout, conversion_result_line_aux b inP outP hL hC]
    have hcond : b.LoadLibrary "gdiplus.dll" ≠ 0 ∧
        b.GetProcAddress (b.LoadLibrary "gdiplus.dll") "GdipConvertToEmfPlusToFile" = true := by
      simp only [EntryPointAbsent, not_or, Bool.not_eq_false] at hP
      exact hP
    rw [convert_status_eq, if_pos hcond, if_pos hOk]

/-- Witness for C10: the sample backend answering `Ok` with `success = FALSE`. -/
theorem success_flag_ignored_witness :
    Loaded goodBackend "a.emf" ∧ ContextCreated goodBackend ∧ ¬ EntryPointAbsent goodBackend ∧
    (convertResponse (goodBackend.withSuccess fun _ _ _ _ _ => false) 12 11 "out.emf").success
      = false ∧
    stdout (ConvertAndSaveEmfToEmfPlus (goodBackend.withSuccess fun _ _ _ _ _ => false)
        "a.emf" "out.emf") = ["[OK] Conversion succeeded: " ++ "out.emf" ++ "\n"] :=
  ⟨by decide, by decide, by decide, by decide,
   (success_flag_ignored goodBackend (fun _ _ _ _ _ => true) (fun _ _ _ _ _ => false) 12 11
      "a.emf" "out.emf").2.2.2.2.2 (by decide) (by decide) (by decide) (by decide)⟩

end Emf2EmfPlus
